import Mathlib

/-!
Shallow embedding of `src/lib/dutchie-utils.ts` (the fetch-orchestration and
caching core of the mintdeals frontend) and verification of the specification
claims about it.

Modelling conventions:
* JavaScript numbers used as prices/percentages are modelled as `ℚ` (for
  `calculateDiscount`, whose inputs are arbitrary numbers) or `Option Nat`
  (for the integer minor-currency-unit price fields coming from GraphQL,
  where `none` models `null`/`undefined` and JS truthiness of a number is
  "present and nonzero").
* `async` functions are modelled as total functions taking their external
  effects as explicit oracle inputs: the KV cache is a `KVOracle` (presence
  flag plus the outcome of the single `get` a call performs) and the network
  is an `Except String (HttpResponse α)` (a network/timeout throw, or a
  response carrying status, body text and parsed JSON payload).  A thrown JS
  `Error` is an `Except.error` carrying its message.
* Cache `put` calls are recorded in the result (key and value of the
  attempted write) rather than performed; `put` failures are absorbed by the
  code, so only the attempt matters.
* Console logging and the wall-clock `duration` field are side effects with
  no data flow into the results and are not modelled.
* Display-only product fields (name, brand, category, image, description,
  potency, variant option/quantity) do not influence any claim and are
  omitted from the record types; the fields that drive control flow are kept.
-/

namespace MintDeals

/-- A variant as returned by the specials GraphQL query: regular price
`priceRec` and optional discounted price `specialPriceRec`, both nullable
numbers in minor currency units. -/
structure Variant where
  priceRec : Option Nat
  specialPriceRec : Option Nat
deriving DecidableEq, Repr

/-- A product as returned by the specials GraphQL query; `variants` is
nullable (the code guards with `product.variants?.some`). -/
structure Product where
  id : String
  variants : Option (List Variant)
deriving DecidableEq, Repr

/-- A store descriptor as consumed by the aggregator: `{ id, name }`. -/
structure Store where
  id : String
  name : String
deriving DecidableEq, Repr

/-- JS truthiness of a nullable number: present and nonzero.
(`null`, `undefined` and `0` are falsy.) -/
def jsTruthyNum (o : Option Nat) : Bool :=
  match o with
  | some n => n != 0
  | none => false

/-- The filter predicate applied per variant at line 195:
`v.specialPriceRec && v.specialPriceRec !== v.priceRec`.
When the first conjunct holds, `specialPriceRec` is a number, so the strict
inequality `!==` is value inequality (a number is never strictly equal to
`null`/`undefined`, matching `Option` disequality). -/
def variantOnSpecial (v : Variant) : Bool :=
  jsTruthyNum v.specialPriceRec && (v.specialPriceRec != v.priceRec)

/-- The per-product filter at lines 194-196:
`product.variants?.some (v => v.specialPriceRec && v.specialPriceRec !== v.priceRec)`. -/
def productOnSpecial (p : Product) : Bool :=
  match p.variants with
  | some vs => vs.any variantOnSpecial
  | none => false

/-- The filtering step of `fetchStoreSpecials` (line 194):
`specialsData.menu.products.filter(productOnSpecial)`. -/
def filterSpecials (products : List Product) : List Product :=
  products.filter productOnSpecial

/-- The predicate stated by the spec sentence behind claim C2 ("at least one
variant whose discounted price is present and strictly lower than its regular
price"), written from the words of the spec for comparison with
`productOnSpecial`. -/
def specOnSpecial (p : Product) : Bool :=
  match p.variants with
  | some vs =>
      vs.any fun v =>
        match v.specialPriceRec, v.priceRec with
        | some s, some r => s < r
        | _, _ => false
  | none => false

/-- The predicate of the amended claim C2: some variant has a discounted
price that is present (nonzero number) and not equal to its regular price. -/
def amendedOnSpecial (p : Product) : Bool :=
  match p.variants with
  | some vs =>
      vs.any fun v =>
        match v.specialPriceRec with
        | some s => s != 0 && (some s != v.priceRec)
        | none => false
  | none => false

/-- JS `Math.round`: round half toward positive infinity, `⌊x + 1/2⌋`. -/
def jsRound (x : ℚ) : ℤ :=
  ⌊x + 1 / 2⌋

/-- `calculateDiscount` (lines 340-343):
`if (!regular || !special || special >= regular) return 0;
 return Math.round(((regular - special) / regular) * 100);`
For a JS number, `!x` is true exactly when `x` is `0` (or `NaN`, outside this
rational model). -/
def calculateDiscount (regular special : ℚ) : ℤ :=
  if regular = 0 ∨ special = 0 ∨ regular ≤ special then 0
  else jsRound ((regular - special) / regular * 100)

/-- A GraphQL-level error entry in a response payload (`{ message }`). -/
structure GqlError where
  message : String
deriving DecidableEq, Repr

/-- The parsed JSON body of a Dutchie response: an optional `errors` array
(`some []` models a present-but-empty array, which is truthy in JS) and the
`data` payload of type `α`. -/
structure GqlPayload (α : Type) where
  errors : Option (List GqlError)
  data : α
deriving DecidableEq, Repr

/-- An HTTP response as observed by `fetchFromDutchie`: `response.ok`,
`response.status`, the body text, and the result of `JSON.parse` on it. -/
structure HttpResponse (α : Type) where
  ok : Bool
  status : Nat
  text : String
  payload : GqlPayload α
deriving DecidableEq, Repr

/-- `fetchFromDutchie` (lines 89-116), with the network modelled as an
oracle: `Except.error e` is a throw from `fetchWithTimeout` (timeout or
network failure) which propagates unchanged; on a response, a non-ok status
throws `API Error: {status} - {text}`, a truthy `data.errors` throws
`GraphQL Error: {joined messages}`, and otherwise `data.data` is returned. -/
def fetchFromDutchie (net : Except String (HttpResponse α)) : Except String α :=
  match net with
  | .error e => .error e
  | .ok resp =>
      if !resp.ok then
        .error ("API Error: " ++ toString resp.status ++ " - " ++ resp.text)
      else
        match resp.payload.errors with
        | some errs =>
            .error ("GraphQL Error: " ++
              String.intercalate ", " (errs.map GqlError.message))
        | none => .ok resp.payload.data

/-- The KV cache as seen by one cache-aside call: whether
`locals?.runtime?.env?.DUTCHIE_CACHE` is present, and the outcome of the one
`kv.get` the call performs (`.error` models a throwing `get`, absorbed by
the code; `.ok none` a miss; `.ok (some v)` a hit).  The cached value type is
`α` (store list or product list). -/
structure KVOracle (α : Type) where
  present : Bool
  readResult : Except String (Option α)

/-- A cache oracle with no KV namespace bound (build time / unconfigured). -/
def kvAbsent : KVOracle α :=
  { present := false, readResult := .ok none }

/-- A cache oracle with KV present whose `get` returns a miss. -/
def kvMiss : KVOracle α :=
  { present := true, readResult := .ok none }

/-- The cache-hit test performed at the top of `fetchDutchieStores` and
`fetchStoreSpecials`: when KV is present, a `get` that returns a truthy
value short-circuits; a throwing or missing `get` falls through to the
fetch path. -/
def cacheHit (kvo : KVOracle α) : Option α :=
  if kvo.present then
    match kvo.readResult with
    | .ok (some v) => some v
    | _ => none
  else none

/-- The `data` payload of the stores query: `{ retailers }` (nullable). -/
structure StoresData where
  retailers : Option (List Store)
deriving DecidableEq, Repr

/-- The `menu` object of the specials query: `{ products }` (nullable). -/
structure Menu where
  products : Option (List Product)
deriving DecidableEq, Repr

/-- The `data` payload of the specials query: `{ menu }` (nullable). -/
structure SpecialsData where
  menu : Option Menu
deriving DecidableEq, Repr

/-- Result of one cache-aside call: the value returned to the caller plus
the attempted cache write, recorded as `(key, value)` (the code absorbs
`put` failures, so only the attempt is observable). -/
structure CacheAsideOutcome (α : Type) where
  result : α
  write : Option (String × α)
deriving DecidableEq, Repr

/-- `fetchDutchieStores` (lines 121-162): cache-aside over the fixed key
`dutchie:stores:all`; on a miss, fetch the stores query, default the
retailer list to `[]`, write back only when KV is present and the list is
nonempty, and absorb any upstream failure into an empty list. -/
def fetchDutchieStores (kvo : KVOracle (List Store))
    (net : Except String (HttpResponse StoresData)) :
    CacheAsideOutcome (List Store) :=
  match cacheHit kvo with
  | some cached => { result := cached, write := none }
  | none =>
      match fetchFromDutchie net with
      | .ok d =>
          let stores := d.retailers.getD []
          { result := stores,
            write :=
              if kvo.present && !stores.isEmpty then
                some ("dutchie:stores:all", stores)
              else none }
      | .error _ => { result := [], write := none }

/-- `fetchStoreSpecials` (lines 167-221): cache-aside over the key
`dutchie:specials:{storeId}`; on a miss, fetch the specials query for the
store; when the payload has a (possibly empty) products array, filter it
with `productOnSpecial` and — whenever KV is present — write the filtered
list back; when menu data is absent, or the upstream fetch throws, return
`[]` with no write.  The function never throws: every failure path is
caught and mapped to `[]`. -/
def fetchStoreSpecials (storeId : String) (kvo : KVOracle (List Product))
    (net : Except String (HttpResponse SpecialsData)) :
    CacheAsideOutcome (List Product) :=
  match cacheHit kvo with
  | some cached => { result := cached, write := none }
  | none =>
      match fetchFromDutchie net with
      | .ok d =>
          match d.menu with
          | some menu =>
              match menu.products with
              | some products =>
                  let specialProducts := filterSpecials products
                  { result := specialProducts,
                    write :=
                      if kvo.present then
                        some ("dutchie:specials:" ++ storeId, specialProducts)
                      else none }
              | none => { result := [], write := none }
          | none => { result := [], write := none }
      | .error _ => { result := [], write := none }

/-- Outcome of one task of the `Promise.allSettled` join: fulfilled with a
value, or rejected with the message of the thrown `Error`. -/
inductive SettledResult (α : Type) where
  | fulfilled (value : α)
  | rejected (reason : String)
deriving DecidableEq, Repr

/-- One entry of `storeSpecials`: the store, its filtered products, and
`specialCount = products.length`. -/
structure StoreSpecialsEntry where
  store : Store
  products : List Product
  specialCount : Nat
deriving DecidableEq, Repr

/-- The aggregate returned by `fetchMultipleStoreSpecials`, minus the
wall-clock `duration` field (pure timing diagnostics, not modelled). -/
structure AggregateResult where
  storeSpecials : List StoreSpecialsEntry
  totalSpecials : Nat
  errors : List String
deriving DecidableEq, Repr

/-- The result-processing loop of `fetchMultipleStoreSpecials`
(lines 243-266), over the per-index pairs of input store and settled task
outcome: a fulfilled task with a nonempty product list appends a
`storeSpecials` entry and adds its count to the total; a fulfilled empty
task contributes nothing; a rejected task appends
`{storeName}: {reason or Unknown error}` to `errors`. -/
def processSettled : List (Store × SettledResult (List Product)) → AggregateResult
  | [] => { storeSpecials := [], totalSpecials := 0, errors := [] }
  | (store, .fulfilled products) :: rest =>
      let r := processSettled rest
      if products.length > 0 then
        { storeSpecials :=
            { store := store, products := products,
              specialCount := products.length } :: r.storeSpecials,
          totalSpecials := products.length + r.totalSpecials,
          errors := r.errors }
      else r
  | (store, .rejected reason) :: rest =>
      let r := processSettled rest
      { storeSpecials := r.storeSpecials,
        totalSpecials := r.totalSpecials,
        errors :=
          (store.name ++ ": " ++ (if reason = "" then "Unknown error" else reason))
            :: r.errors }

/-- `fetchMultipleStoreSpecials` (lines 227-284).  The fan-out maps each
store to `fetchStoreSpecials(store.id, store.name, locals)`; the per-store
cache and network effects are the oracles `kv` and `net`, indexed by store
id.  Since `fetchStoreSpecials` catches every failure internally and
resolves with a list, every settled outcome is `fulfilled`. -/
def fetchMultipleStoreSpecials (stores : List Store)
    (kv : String → KVOracle (List Product))
    (net : String → Except String (HttpResponse SpecialsData)) :
    AggregateResult :=
  processSettled
    (stores.map fun store =>
      (store, .fulfilled (fetchStoreSpecials store.id (kv store.id) (net store.id)).result))

/-- The batching loop of `fetchStoreSpecialsInBatches` (line 301-302):
`stores.slice(i, i + batchSize)` for `i = 0, batchSize, ...`, i.e. the list
of successive chunks `take n / drop n`.  (For `n = 0` the JS loop would not
terminate; the equations below peel one element per chunk, which only
matches the source for `n ≥ 1`, the only case the claims use.) -/
def chunksOf (n : Nat) : List α → List (List α)
  | [] => []
  | x :: xs => (x :: xs.take (n - 1)) :: chunksOf n (xs.drop (n - 1))
termination_by l => l.length
decreasing_by
  simp only [List.length_drop, List.length_cons]
  omega

/-- `fetchStoreSpecialsInBatches` (lines 289-319): run
`fetchMultipleStoreSpecials` once per chunk sequentially, concatenating
`storeSpecials` and `errors` across chunks and summing the totals.  (The
source result has no `duration` field.) -/
def fetchStoreSpecialsInBatches (stores : List Store) (batchSize : Nat)
    (kv : String → KVOracle (List Product))
    (net : String → Except String (HttpResponse SpecialsData)) :
    AggregateResult :=
  let batchResults :=
    (chunksOf batchSize stores).map fun batch =>
      fetchMultipleStoreSpecials batch kv net
  { storeSpecials := (batchResults.map AggregateResult.storeSpecials).flatten,
    totalSpecials := (batchResults.map AggregateResult.totalSpecials).sum,
    errors := (batchResults.map AggregateResult.errors).flatten }

/-! ## Theorems for the claims -/

/-- C7: for all numbers `regular` and `special`, `calculateDiscount` returns
0 when `special >= regular` or either argument is falsy/zero, and otherwise
returns `round(((regular - special) / regular) * 100)`; in particular
`calculateDiscount 1000 750 = 25`. -/
theorem claim_C7 :
    (∀ regular special : ℚ,
      calculateDiscount regular special =
        if regular = 0 ∨ special = 0 ∨ regular ≤ special then 0
        else round ((regular - special) / regular * 100)) ∧
    calculateDiscount 1000 750 = 25 := by
  constructor
  · intro regular special
    by_cases h : regular = 0 ∨ special = 0 ∨ regular ≤ special
    · simp [calculateDiscount, h]
    · simp [calculateDiscount, h, jsRound, round_eq]
  · have h1000 : ¬((1000 : ℚ) = 0 ∨ (750 : ℚ) = 0 ∨ (1000 : ℚ) ≤ 750) := by
      norm_num
    rw [calculateDiscount, if_neg h1000, jsRound]
    rw [show ((1000 : ℚ) - 750) / 1000 * 100 + 1 / 2 = 51 / 2 by norm_num]
    rw [Int.floor_eq_iff]
    norm_num

/-- C10: for non-negative inputs the discount percentage is between 0 and
100 inclusive. -/
theorem claim_C10 (regular special : ℚ) (hr : 0 ≤ regular) (hs : 0 ≤ special) :
    0 ≤ calculateDiscount regular special ∧ calculateDiscount regular special ≤ 100 := by
  rw [calculateDiscount]
  split
  · exact ⟨le_refl 0, by norm_num⟩
  · rename_i h
    push_neg at h
    obtain ⟨hr0, hs0, hlt⟩ := h
    have hrpos : 0 < regular := lt_of_le_of_ne hr (Ne.symm hr0)
    have hspos : 0 < special := lt_of_le_of_ne hs (Ne.symm hs0)
    have hsub : 0 < regular - special := sub_pos.mpr hlt
    have hx0 : 0 < (regular - special) / regular * 100 :=
      mul_pos (div_pos hsub hrpos) (by norm_num)
    have hx100 : (regular - special) / regular * 100 < 100 := by
      have hq : (regular - special) / regular < 1 :=
        (div_lt_one hrpos).mpr (by linarith)
      calc (regular - special) / regular * 100 < 1 * 100 := by
            exact mul_lt_mul_of_pos_right hq (by norm_num)
        _ = 100 := one_mul 100
    rw [jsRound]
    constructor
    · exact Int.le_floor.mpr (by push_cast; linarith)
    · have hlt101 : ((regular - special) / regular * 100 + 1 / 2 : ℚ) < ((101 : ℤ) : ℚ) := by
        push_cast
        linarith
      exact Int.lt_add_one_iff.mp (Int.floor_lt.mpr hlt101)

/-- C10 witness: the bounds hold at the concrete input (1000, 750). -/
theorem claim_C10_witness :
    (0 : ℚ) ≤ 1000 ∧ (0 : ℚ) ≤ 750 ∧
    (0 ≤ calculateDiscount 1000 750 ∧ calculateDiscount 1000 750 ≤ 100) :=
  ⟨by norm_num, by norm_num, claim_C10 1000 750 (by norm_num) (by norm_num)⟩

/-- C6: on a non-success response status `fetchFromDutchie` fails with an
error carrying the status and body; on a payload carrying a GraphQL error
list it fails with the joined messages; otherwise it returns the parsed
`data` payload. -/
theorem claim_C6 (α : Type) (resp : HttpResponse α) :
    (resp.ok = false →
      fetchFromDutchie (.ok resp) =
        .error ("API Error: " ++ toString resp.status ++ " - " ++ resp.text)) ∧
    (∀ errs, resp.ok = true → resp.payload.errors = some errs →
      fetchFromDutchie (.ok resp) =
        .error ("GraphQL Error: " ++
          String.intercalate ", " (errs.map GqlError.message))) ∧
    (resp.ok = true → resp.payload.errors = none →
      fetchFromDutchie (.ok resp) = .ok resp.payload.data) := by
  refine ⟨?_, ?_, ?_⟩
  · intro h
    simp [fetchFromDutchie, h]
  · intro errs hok herrs
    simp [fetchFromDutchie, hok, herrs]
  · intro hok herrs
    simp [fetchFromDutchie, hok, herrs]

/-- C6 witness: the three branches evaluated at concrete responses. -/
theorem claim_C6_witness :
    fetchFromDutchie (.ok (⟨false, 500, "boom", ⟨none, 0⟩⟩ : HttpResponse Nat)) =
      .error "API Error: 500 - boom" ∧
    fetchFromDutchie
        (.ok (⟨true, 200, "", ⟨some [⟨"bad input"⟩, ⟨"try later"⟩], 0⟩⟩ : HttpResponse Nat)) =
      .error "GraphQL Error: bad input, try later" ∧
    fetchFromDutchie (.ok (⟨true, 200, "", ⟨none, 7⟩⟩ : HttpResponse Nat)) = .ok 7 := by
  refine ⟨?_, ?_, ?_⟩
  · have h := (claim_C6 Nat ⟨false, 500, "boom", ⟨none, 0⟩⟩).1 rfl
    simpa using h
  · have h :=
      (claim_C6 Nat ⟨true, 200, "", ⟨some [⟨"bad input"⟩, ⟨"try later"⟩], 0⟩⟩).2.1
        [⟨"bad input"⟩, ⟨"try later"⟩] rfl rfl
    simpa [String.intercalate] using h
  · exact (claim_C6 Nat ⟨true, 200, "", ⟨none, 7⟩⟩).2.2 rfl rfl

/-- C5: when the cache does not hit and the upstream fetch fails (timeout,
HTTP error, or GraphQL error — i.e. `fetchFromDutchie` yields an error),
both `fetchDutchieStores` and `fetchStoreSpecials` return an empty list to
their caller (and, being total functions of their oracles, never propagate
the failure). -/
theorem claim_C5 (storeId : String)
    (kvoS : KVOracle (List Store)) (kvoP : KVOracle (List Product))
    (netS : Except String (HttpResponse StoresData))
    (netP : Except String (HttpResponse SpecialsData)) (eS eP : String)
    (hS : cacheHit kvoS = none) (hP : cacheHit kvoP = none)
    (hfS : fetchFromDutchie netS = .error eS)
    (hfP : fetchFromDutchie netP = .error eP) :
    (fetchDutchieStores kvoS netS).result = [] ∧
    (fetchStoreSpecials storeId kvoP netP).result = [] := by
  constructor
  · simp [fetchDutchieStores, hS, hfS]
  · simp [fetchStoreSpecials, hP, hfP]

/-- C5 witness: a concrete timeout with no cache configured yields empty
results from both functions. -/
theorem claim_C5_witness :
    (fetchDutchieStores kvAbsent (.error "Request timeout after 10000ms")).result = [] ∧
    (fetchStoreSpecials "store-1" kvAbsent
        (.error "Request timeout after 10000ms")).result = [] :=
  claim_C5 "store-1" kvAbsent kvAbsent
    (.error "Request timeout after 10000ms") (.error "Request timeout after 10000ms")
    "Request timeout after 10000ms" "Request timeout after 10000ms"
    rfl rfl rfl rfl

/-- A product whose only variant has a discounted price (200) strictly
HIGHER than its regular price (100). -/
def higherPricedProduct : Product :=
  { id := "p-higher", variants := some [{ priceRec := some 100, specialPriceRec := some 200 }] }

/-- C2 counterexample: the filter of `fetchStoreSpecials` retains a product
none of whose variants has a discounted price strictly lower than its
regular price — the code tests `specialPriceRec !== priceRec`, not `<`. -/
theorem claim_C2_cex :
    filterSpecials [higherPricedProduct] = [higherPricedProduct] ∧
    specOnSpecial higherPricedProduct = false := by
  constructor
  · rfl
  · rfl

/-- C2 amended: a product is retained if and only if it has at least one
variant whose discounted price is present as a nonzero number and is
DIFFERENT from (not necessarily lower than) its regular price; stated both
for the filter predicate and for the result of `fetchStoreSpecials` on a
successful fetch. -/
theorem claim_C2_amended :
    (∀ p, productOnSpecial p = amendedOnSpecial p) ∧
    (∀ products, filterSpecials products = products.filter amendedOnSpecial) ∧
    (∀ (storeId : String) (products : List Product),
      (fetchStoreSpecials storeId kvAbsent
          (.ok ⟨true, 200, "", ⟨none, ⟨some ⟨some products⟩⟩⟩⟩)).result =
        products.filter amendedOnSpecial) := by
  have hv : ∀ v, variantOnSpecial v =
      (match v.specialPriceRec with
       | some s => s != 0 && (some s != v.priceRec)
       | none => false) := by
    intro v
    cases h : v.specialPriceRec with
    | none => simp [variantOnSpecial, jsTruthyNum, h]
    | some s => simp [variantOnSpecial, jsTruthyNum, h]
  have hp : ∀ p, productOnSpecial p = amendedOnSpecial p := by
    intro p
    cases hvs : p.variants with
    | none => simp [productOnSpecial, amendedOnSpecial, hvs]
    | some vs =>
        simp only [productOnSpecial, amendedOnSpecial, hvs]
        rw [show variantOnSpecial =
            (fun v : Variant =>
              match v.specialPriceRec with
              | some s => s != 0 && (some s != v.priceRec)
              | none => false) from funext hv]
  have hf : ∀ products, filterSpecials products = products.filter amendedOnSpecial := by
    intro products
    rw [filterSpecials, show productOnSpecial = amendedOnSpecial from funext hp]
  refine ⟨hp, hf, ?_⟩
  intro storeId products
  simp [fetchStoreSpecials, cacheHit, kvAbsent, fetchFromDutchie, hf]

/-- The network oracle used for the C8 counterexample: a successful specials
response whose products list is empty, so the filtered result is empty. -/
def emptyMenuNet : Except String (HttpResponse SpecialsData) :=
  .ok ⟨true, 200, "", ⟨none, ⟨some ⟨some []⟩⟩⟩⟩

/-- C8 counterexample: with the cache available and missing, a successful
fetch whose filtered specials list is EMPTY still performs a cache write
(of the empty list) — the code only requires `menu.products` to exist, it
never checks `specialProducts.length`. -/
theorem claim_C8_cex :
    (fetchStoreSpecials "s1" kvMiss emptyMenuNet).result = [] ∧
    (fetchStoreSpecials "s1" kvMiss emptyMenuNet).write =
      some ("dutchie:specials:s1", []) := by
  constructor
  · rfl
  · rfl

/-- C8 amended: `fetchStoreSpecials` attempts a cache write exactly when the
cache is available, the call did not hit the cache, and the upstream fetch
succeeded with a menu carrying a products array; the value written is the
filtered specials list, which may be empty. -/
theorem claim_C8_amended (storeId : String) (kvo : KVOracle (List Product))
    (net : Except String (HttpResponse SpecialsData)) (w : String × List Product) :
    (fetchStoreSpecials storeId kvo net).write = some w ↔
      kvo.present = true ∧ cacheHit kvo = none ∧
      ∃ d products, fetchFromDutchie net = .ok d ∧
        d.menu = some ⟨some products⟩ ∧
        w = ("dutchie:specials:" ++ storeId, filterSpecials products) := by
  rcases h1 : cacheHit kvo with _ | v
  · rcases h2 : fetchFromDutchie net with e | d
    · simp [fetchStoreSpecials, h1, h2]
    · obtain ⟨m⟩ := d
      rcases m with _ | menu
      · simp [fetchStoreSpecials, h1, h2]
      · obtain ⟨mp⟩ := menu
        rcases mp with _ | products
        · simp [fetchStoreSpecials, h1, h2]
        · by_cases h5 : kvo.present = true
          · simp [fetchStoreSpecials, h1, h2, h5, eq_comm]
          · simp [fetchStoreSpecials, h1, h2, h5]
  · simp [fetchStoreSpecials, h1]

/-- C8 amended witness: the characterization applied at a concrete input —
cache present and missing, successful fetch with an empty products array —
yields a write of the empty filtered list. -/
theorem claim_C8_amended_witness :
    (fetchStoreSpecials "s1" kvMiss emptyMenuNet).write =
      some ("dutchie:specials:s1", []) :=
  (claim_C8_amended "s1" kvMiss emptyMenuNet ("dutchie:specials:s1", [])).mpr
    ⟨rfl, rfl, ⟨some ⟨some []⟩⟩, [], rfl, rfl, rfl⟩

/-! ### The three-store scenario of claim C1 -/

/-- Store A of the scenario: its fetch succeeds with 2 specials. -/
def storeA : Store := { id := "a", name := "A" }

/-- Store B of the scenario: its fetch times out. -/
def storeB : Store := { id := "b", name := "B" }

/-- Store C of the scenario: its fetch succeeds with 0 specials. -/
def storeC : Store := { id := "c", name := "C" }

/-- A product that passes the specials filter (discounted 50 below a
regular price of 100). -/
def discountedProduct (pid : String) : Product :=
  { id := pid, variants := some [{ priceRec := some 100, specialPriceRec := some 50 }] }

/-- The per-store network oracle of the scenario: A responds with two
discounted products, B throws the 10-second timeout error, C responds with
an empty products list. -/
def scenarioNet (storeId : String) : Except String (HttpResponse SpecialsData) :=
  if storeId = "a" then
    .ok ⟨true, 200, "",
      ⟨none, ⟨some ⟨some [discountedProduct "p1", discountedProduct "p2"]⟩⟩⟩⟩
  else if storeId = "b" then
    .error "Request timeout after 10000ms"
  else
    .ok ⟨true, 200, "", ⟨none, ⟨some ⟨some []⟩⟩⟩⟩

/-- The aggregate the code produces on the scenario, with no cache bound. -/
def scenarioResult : AggregateResult :=
  fetchMultipleStoreSpecials [storeA, storeB, storeC] (fun _ => kvAbsent) scenarioNet

/-- C1 counterexample: in the 3-store scenario (A succeeds with 2 specials,
B times out, C succeeds with 0 specials) the errors list is EMPTY, not
`["B: Request timeout after 10000ms"]` — `fetchStoreSpecials` catches the
timeout internally and fulfills with `[]`, so the settled join never sees a
rejection. -/
theorem claim_C1_cex :
    scenarioResult.errors = [] ∧
    scenarioResult.errors ≠ ["B: Request timeout after 10000ms"] := by
  constructor
  · rfl
  · have he : scenarioResult.errors = ([] : List String) := rfl
    rw [he]
    intro h
    exact List.noConfusion h

/-- C1 amended: a store whose per-store fetch fails contributes NO entry to
the errors list — `fetchStoreSpecials` absorbs every failure and fulfills
with an empty list, so the failing store is silently excluded and `errors`
is always empty; in the 3-store scenario the result is
`storeSpecials = [{A, 2 specials}]`, `errors = []`, `totalSpecials = 2`,
and the call does not throw (the model is a total function). -/
theorem claim_C1_amended :
    (∀ (stores : List Store) (kv : String → KVOracle (List Product))
        (net : String → Except String (HttpResponse SpecialsData)),
      (fetchMultipleStoreSpecials stores kv net).errors = []) ∧
    scenarioResult =
      { storeSpecials :=
          [{ store := storeA,
             products := [discountedProduct "p1", discountedProduct "p2"],
             specialCount := 2 }],
        totalSpecials := 2,
        errors := [] } := by
  constructor
  · intro stores kv net
    induction stores with
    | nil => rfl
    | cons s ss ih =>
        simp only [fetchMultipleStoreSpecials, List.map_cons, processSettled] at *
        split
        · exact ih
        · exact ih
  · rfl

/-! ### The join processor: partition and ordering invariants (C3, C9) -/

/-- The `storeSpecials` entry an input pair contributes, if any: a fulfilled
task with a nonempty product list. -/
def specEntryOf : Store × SettledResult (List Product) → Option StoreSpecialsEntry
  | (store, .fulfilled products) =>
      if products.length > 0 then
        some { store := store, products := products, specialCount := products.length }
      else none
  | (_, .rejected _) => none

/-- The `errors` entry an input pair contributes, if any: a rejected task. -/
def errEntryOf : Store × SettledResult (List Product) → Option String
  | (_, .fulfilled _) => none
  | (store, .rejected reason) =>
      some (store.name ++ ": " ++ (if reason = "" then "Unknown error" else reason))

/-- C3: each input pair contributes to exactly one of `storeSpecials`, the
`errors` list, or neither — the two output lists are the `filterMap`s of two
per-pair functions that are never both `some`, so
`storeSpecials.length + errors.length ≤ N`; in particular this bound holds
for `fetchMultipleStoreSpecials` over any store list. -/
theorem claim_C3 :
    (∀ pairs, (processSettled pairs).storeSpecials = pairs.filterMap specEntryOf ∧
      (processSettled pairs).errors = pairs.filterMap errEntryOf) ∧
    (∀ p, ((specEntryOf p).isSome && (errEntryOf p).isSome) = false) ∧
    (∀ pairs, (processSettled pairs).storeSpecials.length +
      (processSettled pairs).errors.length ≤ pairs.length) ∧
    (∀ (stores : List Store) (kv : String → KVOracle (List Product))
        (net : String → Except String (HttpResponse SpecialsData)),
      (fetchMultipleStoreSpecials stores kv net).storeSpecials.length +
        (fetchMultipleStoreSpecials stores kv net).errors.length ≤ stores.length) := by
  have hchar : ∀ pairs, (processSettled pairs).storeSpecials = pairs.filterMap specEntryOf ∧
      (processSettled pairs).errors = pairs.filterMap errEntryOf := by
    intro pairs
    induction pairs with
    | nil => exact ⟨rfl, rfl⟩
    | cons p rest ih =>
        obtain ⟨s, r⟩ := p
        cases r with
        | fulfilled products =>
            by_cases h : products.length > 0
            · simp [processSettled, specEntryOf, errEntryOf, h, ih.1, ih.2,
                List.filterMap_cons]
            · simp [processSettled, specEntryOf, errEntryOf, h, ih.1, ih.2,
                List.filterMap_cons]
        | rejected reason =>
            simp [processSettled, specEntryOf, errEntryOf, ih.1, ih.2,
              List.filterMap_cons]
  have hdisj : ∀ p, ((specEntryOf p).isSome && (errEntryOf p).isSome) = false := by
    intro p
    obtain ⟨s, r⟩ := p
    cases r with
    | fulfilled products => simp [errEntryOf]
    | rejected reason => simp [specEntryOf]
  have hlen : ∀ pairs, (processSettled pairs).storeSpecials.length +
      (processSettled pairs).errors.length ≤ pairs.length := by
    intro pairs
    induction pairs with
    | nil => simp [processSettled]
    | cons p rest ih =>
        obtain ⟨s, r⟩ := p
        cases r with
        | fulfilled products =>
            by_cases h : products.length > 0
            · simp [processSettled, h]
              omega
            · simp [processSettled, h]
              omega
        | rejected reason =>
            simp [processSettled]
            omega
  refine ⟨hchar, hdisj, hlen, ?_⟩
  intro stores kv net
  calc (fetchMultipleStoreSpecials stores kv net).storeSpecials.length +
        (fetchMultipleStoreSpecials stores kv net).errors.length ≤
      (stores.map fun store =>
        (store, SettledResult.fulfilled
          (fetchStoreSpecials store.id (kv store.id) (net store.id)).result)).length :=
        hlen _
    _ = stores.length := List.length_map _ _

/-- C9: the stores of the `storeSpecials` entries form a sublist of the
input stores (same relative order, independent of completion order — the
join reads results by input index), and `totalSpecials` is the sum of the
`specialCount` fields; stated for the join processor and for
`fetchMultipleStoreSpecials`. -/
theorem claim_C9 :
    (∀ pairs, List.Sublist
        ((processSettled pairs).storeSpecials.map StoreSpecialsEntry.store)
        (pairs.map Prod.fst) ∧
      (processSettled pairs).totalSpecials =
        ((processSettled pairs).storeSpecials.map StoreSpecialsEntry.specialCount).sum) ∧
    (∀ (stores : List Store) (kv : String → KVOracle (List Product))
        (net : String → Except String (HttpResponse SpecialsData)),
      List.Sublist
        ((fetchMultipleStoreSpecials stores kv net).storeSpecials.map
          StoreSpecialsEntry.store) stores ∧
      (fetchMultipleStoreSpecials stores kv net).totalSpecials =
        ((fetchMultipleStoreSpecials stores kv net).storeSpecials.map
          StoreSpecialsEntry.specialCount).sum) := by
  have hmain : ∀ pairs, List.Sublist
      ((processSettled pairs).storeSpecials.map StoreSpecialsEntry.store)
      (pairs.map Prod.fst) ∧
      (processSettled pairs).totalSpecials =
        ((processSettled pairs).storeSpecials.map StoreSpecialsEntry.specialCount).sum := by
    intro pairs
    induction pairs with
    | nil => exact ⟨List.Sublist.refl [], rfl⟩
    | cons p rest ih =>
        obtain ⟨s, r⟩ := p
        cases r with
        | fulfilled products =>
            by_cases h : products.length > 0
            · constructor
              · simp only [processSettled, h, if_pos, List.map_cons]
                exact List.Sublist.cons₂ s ih.1
              · simp only [processSettled, h, if_pos, List.map_cons, List.sum_cons]
                rw [ih.2]
            · constructor
              · simp only [processSettled, h, if_neg, List.map_cons]
                exact List.Sublist.cons s ih.1
              · simp only [processSettled, h, if_neg]
                exact ih.2
        | rejected reason =>
            constructor
            · simp only [processSettled, List.map_cons]
              exact List.Sublist.cons s ih.1
            · simp only [processSettled]
              exact ih.2
  refine ⟨hmain, ?_⟩
  intro stores kv net
  have h := hmain (stores.map fun store =>
    (store, SettledResult.fulfilled
      (fetchStoreSpecials store.id (kv store.id) (net store.id)).result))
  constructor
  · have hfst : ((stores.map fun store =>
        (store, SettledResult.fulfilled
          (fetchStoreSpecials store.id (kv store.id) (net store.id)).result)).map
        Prod.fst) = stores := by
      rw [List.map_map]
      exact List.map_id stores
    have h1 := h.1
    rw [hfst] at h1
    exact h1
  · exact h.2

/-! ### Batching equivalence (C4) -/

/-- The join processor is a homomorphism for list append: processing a
concatenation concatenates the success and error lists and adds the
totals. -/
lemma processSettled_append (a b : List (Store × SettledResult (List Product))) :
    processSettled (a ++ b) =
      { storeSpecials :=
          (processSettled a).storeSpecials ++ (processSettled b).storeSpecials,
        totalSpecials :=
          (processSettled a).totalSpecials + (processSettled b).totalSpecials,
        errors := (processSettled a).errors ++ (processSettled b).errors } := by
  induction a with
  | nil => simp [processSettled]
  | cons p rest ih =>
      obtain ⟨s, r⟩ := p
      cases r with
      | fulfilled products =>
          by_cases h : products.length > 0
          · simp [processSettled, h, ih, add_assoc]
          · simp [processSettled, h, ih]
      | rejected reason =>
          simp [processSettled, ih]

/-- Running the unbounded aggregator over the concatenation of a chunk list
equals concatenating/summing the per-chunk aggregates — the shape of
`fetchStoreSpecialsInBatches`. -/
lemma fetchMultiple_over_chunks (cs : List (List Store))
    (kv : String → KVOracle (List Product))
    (net : String → Except String (HttpResponse SpecialsData)) :
    fetchMultipleStoreSpecials cs.flatten kv net =
      { storeSpecials :=
          ((cs.map fun c => fetchMultipleStoreSpecials c kv net).map
            AggregateResult.storeSpecials).flatten,
        totalSpecials :=
          ((cs.map fun c => fetchMultipleStoreSpecials c kv net).map
            AggregateResult.totalSpecials).sum,
        errors :=
          ((cs.map fun c => fetchMultipleStoreSpecials c kv net).map
            AggregateResult.errors).flatten } := by
  induction cs with
  | nil => rfl
  | cons c cs ih =>
      rw [List.flatten_cons]
      show processSettled ((c ++ cs.flatten).map _) = _
      rw [List.map_append, processSettled_append]
      have hrest : processSettled (cs.flatten.map fun store =>
          (store, SettledResult.fulfilled
            (fetchStoreSpecials store.id (kv store.id) (net store.id)).result)) =
          fetchMultipleStoreSpecials cs.flatten kv net := rfl
      rw [hrest, ih]
      simp [fetchMultipleStoreSpecials]

/-- Flattening the `take n / drop n` chunking recovers the input list. -/
lemma chunksOf_flatten_aux {α : Type} (n : Nat) :
    ∀ (k : Nat) (l : List α), l.length ≤ k → (chunksOf n l).flatten = l := by
  intro k
  induction k with
  | zero =>
      intro l h
      have hl : l = [] := List.length_eq_zero.mp (Nat.le_zero.mp h)
      subst hl
      simp [chunksOf]
  | succ k ih =>
      intro l h
      cases l with
      | nil => simp [chunksOf]
      | cons x xs =>
          rw [chunksOf, List.flatten_cons]
          rw [ih (xs.drop (n - 1))
            (by simp only [List.length_drop, List.length_cons] at h ⊢; omega)]
          simp [List.cons_append, List.take_append_drop]

/-- Flattening the chunks of a list gives back the list. -/
lemma chunksOf_flatten {α : Type} (n : Nat) (l : List α) :
    (chunksOf n l).flatten = l :=
  chunksOf_flatten_aux n l.length l (le_refl _)

/-- C4: for any store sequence and positive batch size, with identical
per-store oracles the bounded-concurrency path produces `storeSpecials`,
`totalSpecials` and `errors` identical in content and order to the single
unbounded `fetchMultipleStoreSpecials` call over the whole sequence. -/
theorem claim_C4 (stores : List Store) (batchSize : Nat)
    (kv : String → KVOracle (List Product))
    (net : String → Except String (HttpResponse SpecialsData))
    (_hpos : 0 < batchSize) :
    (fetchStoreSpecialsInBatches stores batchSize kv net).storeSpecials =
        (fetchMultipleStoreSpecials stores kv net).storeSpecials ∧
    (fetchStoreSpecialsInBatches stores batchSize kv net).totalSpecials =
        (fetchMultipleStoreSpecials stores kv net).totalSpecials ∧
    (fetchStoreSpecialsInBatches stores batchSize kv net).errors =
        (fetchMultipleStoreSpecials stores kv net).errors := by
  have hc := fetchMultiple_over_chunks (chunksOf batchSize stores) kv net
  rw [chunksOf_flatten] at hc
  rw [fetchStoreSpecialsInBatches, hc]
  exact ⟨rfl, rfl, rfl⟩

/-- The 25 stores of the C4 witness scenario. -/
def batchWitnessStores : List Store :=
  (List.range 25).map fun i => { id := toString i, name := "Store " ++ toString i }

/-- The network oracle of the C4 witness: store "3" times out, every other
store succeeds with one discounted product. -/
def batchWitnessNet (storeId : String) : Except String (HttpResponse SpecialsData) :=
  if storeId = "3" then .error "Request timeout after 10000ms"
  else .ok ⟨true, 200, "", ⟨none, ⟨some ⟨some [discountedProduct ("pr-" ++ storeId)]⟩⟩⟩⟩

/-- C4 witness: the equivalence instantiated at 25 stores with batch size
10. -/
theorem claim_C4_witness :
    (fetchStoreSpecialsInBatches batchWitnessStores 10 (fun _ => kvAbsent)
          batchWitnessNet).storeSpecials =
        (fetchMultipleStoreSpecials batchWitnessStores (fun _ => kvAbsent)
          batchWitnessNet).storeSpecials ∧
    (fetchStoreSpecialsInBatches batchWitnessStores 10 (fun _ => kvAbsent)
          batchWitnessNet).totalSpecials =
        (fetchMultipleStoreSpecials batchWitnessStores (fun _ => kvAbsent)
          batchWitnessNet).totalSpecials ∧
    (fetchStoreSpecialsInBatches batchWitnessStores 10 (fun _ => kvAbsent)
          batchWitnessNet).errors =
        (fetchMultipleStoreSpecials batchWitnessStores (fun _ => kvAbsent)
          batchWitnessNet).errors :=
  claim_C4 batchWitnessStores 10 (fun _ => kvAbsent) batchWitnessNet (by decide)

end MintDeals
